import Mathlib

/-!
Verification development for the EEA SDI chatbot backend.

The embedding covers the tool-orchestration core of the repository:

* `src/back/src/lib/mcpClient.ts` — the MCP client wrapper (tool registry,
  tool invoker, result formatting, degraded-mode bootstrap `initializeMCP`);
* the Express chat route (`router.post` handler) — request validation,
  system-prompt composition, the first (non-streaming) model call, the
  sequential tool-call loop, the second (streaming) model call, the SSE
  relay, and the route-level catch block.

External collaborators (the OpenAI provider, the MCP tool server, the
JavaScript `JSON.parse` builtin) are modelled as oracles supplied in an
environment record; the handler itself is a pure function from the
environment, the registry state and the request body to the HTTP outcome
together with a trace of the outbound calls it issued.
-/

/-- JSON-like values: the duck-typed data crossing the HTTP and MCP
boundaries (request bodies, tool arguments, tool parameter schemas). -/
inductive Json where
  | null
  | bool (b : Bool)
  | num (n : Int)
  | str (s : String)
  | arr (elems : List Json)
  | obj (fields : List (String × Json))

/-- JavaScript truthiness of a JSON value. Arrays and objects are always
truthy; `null`, `false`, `0` and the empty string are falsy. -/
def jsTruthy : Json → Bool
  | Json.null => false
  | Json.bool b => b
  | Json.num n => decide (n ≠ 0)
  | Json.str s => decide (s ≠ "")
  | Json.arr _ => true
  | Json.obj _ => true

/-- Array.isArray on a JSON value. -/
def isArrayJ : Json → Bool
  | Json.arr _ => true
  | _ => false

/-- A tool descriptor as fetched from the MCP server (interface MCPTool).
`description` and `inputSchema` may be absent at runtime (the list is cast,
not validated), hence the `Option`s. -/
structure MCPTool where
  name : String
  description : Option String
  inputSchema : Option Json

/-- The `function` part of an OpenAI tool spec (interface OpenAITool). -/
structure OpenAIFunctionDef where
  name : String
  description : String
  parameters : Json

/-- An OpenAI-format tool spec (interface OpenAITool). -/
structure OpenAITool where
  type : String
  function : OpenAIFunctionDef

/-- The mutable state of MCPClientWrapper: `initialized`, whether
`this.client` is non-null, and the cached `availableTools` list. -/
structure MCPState where
  initialized : Bool
  hasClient : Bool
  availableTools : List MCPTool

/-- The fallback parameters schema used by convertToOpenAIFormat when a
tool carries no (truthy) inputSchema. -/
def defaultParametersSchema : Json :=
  Json.obj [("type", Json.str "object"),
            ("properties", Json.obj []),
            ("required", Json.arr [])]

/-- MCPClientWrapper.convertToOpenAIFormat: maps the cached tool list to
OpenAI function specs. The JS description fallback (empty string when the
description is falsy) becomes `getD` — the two agree on both the absent and
the empty case; the inputSchema fallback uses JS truthiness of the schema
value. -/
def convertToOpenAIFormat (st : MCPState) : List OpenAITool :=
  st.availableTools.map fun tool =>
    { type := "function"
      function :=
        { name := tool.name
          description := tool.description.getD ""
          parameters :=
            match tool.inputSchema with
            | some j => if jsTruthy j then j else defaultParametersSchema
            | none => defaultParametersSchema } }

/-- The listToolSpecs operation viewed as a state transformer: the source
method only reads `this.availableTools` and performs no mutation, so the
returned state is the input state unchanged. -/
def convertToOpenAIFormatS (st : MCPState) : List OpenAITool × MCPState :=
  (convertToOpenAIFormat st, st)

/-- MCPClientWrapper.initialize. The network interaction (transport
construction, `connect` with its 10s timeout race, `listTools`) is modelled
by the `outcome` oracle: `Except.ok tools` when connect and listTools both
succeed, `Except.error e` when either fails. On success the fetched list is
cached verbatim and `initialized` is set; on failure the client object has
already been assigned (`hasClient := true`) but `initialized` stays false
and the method rethrows with a wrapped message. An already-initialized
client returns at once. -/
def initializeClient (st : MCPState) (outcome : Except String (List MCPTool)) :
    Except String Unit × MCPState :=
  if st.initialized then (Except.ok (), st)
  else
    match outcome with
    | Except.ok tools =>
        (Except.ok (),
         { initialized := true, hasClient := true, availableTools := tools })
    | Except.error e =>
        (Except.error ("MCP initialization failed: " ++ e),
         { st with hasClient := true })

/-- initializeMCP: calls initialize inside a try/catch; a failure is caught
and `null` (here `none`) is returned instead of propagating, so the server
keeps running without catalogue tools. The second component is the
singleton state after the attempt. -/
def initializeMCP (st : MCPState) (outcome : Except String (List MCPTool)) :
    Option MCPState × MCPState :=
  match initializeClient st outcome with
  | (Except.ok _, st2) => (some st2, st2)
  | (Except.error _, st2) => (none, st2)

/-- One content item of an MCP tool-call result (`type` plus an optional
`text` payload). -/
structure MCPContentItem where
  type : String
  text : Option String

/-- An MCP tool-call result as returned by the server: the `isError` flag
and the content list (an absent content field behaves as the empty list,
matching the `result.content || []` guard in the source). -/
structure MCPCallResult where
  isError : Bool
  content : List MCPContentItem

/-- MCPClientWrapper.formatToolResult. Error results yield a text starting
with the Error prefix (using the first content item when it carries truthy
text); success results yield the first text payload when the first item has
type text and truthy text, and the sentinel otherwise. -/
def formatToolResult (result : MCPCallResult) : String :=
  if result.isError then
    match result.content with
    | item :: _ =>
        match item.text with
        | some t => if t ≠ "" then "Error: " ++ t else "Error: Tool execution failed"
        | none => "Error: Tool execution failed"
    | [] => "Error: Tool execution failed"
  else
    match result.content with
    | item :: _ =>
        if item.type = "text" then
          match item.text with
          | some t => if t ≠ "" then t else "No result"
          | none => "No result"
        else "No result"
    | [] => "No result"

/-- MCPClientWrapper.callTool. The MCP server (transport included) is the
`server` oracle: `Except.error` models a thrown transport or protocol
failure, `Except.ok` a structured result (which may itself be flagged
isError). The method guard throws when the wrapper is not initialized or
the client object is null; the try/catch around the network call converts
a throw into the textual error summary. The `Except` in the return type
distinguishes a throw escaping the method (`Except.error`) from a returned
string (`Except.ok`). -/
def callTool (server : String → Json → Except String MCPCallResult)
    (st : MCPState) (toolName : String) (args : Json) : Except String String :=
  if !st.initialized || !st.hasClient then
    Except.error "MCP client not initialized"
  else
    match server toolName args with
    | Except.ok result => Except.ok (formatToolResult result)
    | Except.error e =>
        Except.ok ("Error calling tool " ++ toolName ++ ": " ++ e)

/-- A tool-call request inside the first model response
(`message.tool_calls[i]`): the opaque id, the function name and the raw
JSON-encoded argument string. -/
structure ToolCallReq where
  id : String
  name : String
  arguments : String

/-- The assistant message of the first model response
(`response.choices[0].message`): optional content plus the tool-call
request list (an absent tool_calls field behaves as the empty list — the
source guards with `message.tool_calls && message.tool_calls.length > 0`,
which the empty list reproduces). -/
structure AssistantMsg where
  content : Option String
  tool_calls : List ToolCallReq

/-- A message in the working message list sent to the model. Client-supplied
prompt entries are spread verbatim into the list as untyped JSON (`raw`);
the handler itself appends the system message, the assistant message of the
first response, and tool-result messages tagged with a tool_call_id. -/
inductive ChatMsg where
  | system (content : String)
  | raw (j : Json)
  | assistant (m : AssistantMsg)
  | tool (tool_call_id : String) (content : String)

/-- The tool_call_id of a message when it is a tool message. -/
def ChatMsg.toolCallId? : ChatMsg → Option String
  | ChatMsg.tool id _ => some id
  | _ => none

/-- Parameters of one `openai.chat.completions.create` call. A JS object
without a tools key corresponds to `tools := none` (the defaults model the
keys the source object literal omits). -/
structure ApiParams where
  model : String
  messages : List ChatMsg
  stream : Bool
  tools : Option (List OpenAITool) := none
  tool_choice : Option String := none

/-- The behaviour of one streaming completions call: the per-chunk
`choices[0]?.delta?.content` values in arrival order, and an optional error
raised during the call or the iteration (a create-time throw is modelled as
`chunks := []` with the error set — behaviourally identical, since nothing
has been written yet when create throws). -/
structure StreamOutcome where
  chunks : List (Option String)
  streamError : Option String

/-- The external collaborators of the chat route: whether OPENAI_API_KEY is
set, the `JSON.parse` builtin, the non-streaming and streaming completions
calls, and the MCP tool server (transport included) as used by callTool. -/
structure Env where
  openaiKeySet : Bool
  parseJson : String → Option Json
  createNonStreaming : ApiParams → Except String AssistantMsg
  createStreaming : ApiParams → StreamOutcome
  mcpServer : String → Json → Except String MCPCallResult

/-- The HTTP-level outcome of one chat request: a 400 structured error, a
500 structured error (route-level catch with headers not yet sent), a
completed SSE stream of content chunks, or a stream closed by a final
error-content chunk (route-level catch after streaming began). -/
inductive ChatResult where
  | badRequest (error : String)
  | serverError (message : String)
  | streamed (chunks : List String)
  | streamedError (chunks : List String) (finalChunk : String)

/-- Whether a ChatResult is the 500 structured-error outcome. -/
def ChatResult.isServerError : ChatResult → Bool
  | ChatResult.serverError _ => true
  | _ => false

/-- Record of the outbound calls one handler run issued: the first
completions call, the (name, parsed arguments) pairs actually sent to the
MCP server, and the second completions call. -/
structure Trace where
  firstCall : Option ApiParams := none
  toolContacts : List (String × Json) := []
  secondCall : Option ApiParams := none

/-- The trace of a run that issued no outbound call. -/
def emptyTrace : Trace := {}

/-- The 400 response body text of the prompt validation. -/
def invalidPromptMessage : String :=
  "Invalid request: prompt must be an array of messages"

/-- The error message of the getOpenAI guard when OPENAI_API_KEY is unset. -/
def missingKeyMessage : String :=
  "OPENAI_API_KEY environment variable is not set"

/-- Stand-in for the SyntaxError message thrown by JSON.parse on a
non-parsable argument string (the exact text is runtime-dependent). -/
def jsonParseErrorMessage : String := "Unexpected token in JSON"

/-- Stand-in for the TypeError message thrown by the request-logging line
when the last prompt entry carries a truthy non-string content (calling
substring on a non-string). -/
def substringCrashMessage : String := "userMessage.substring is not a function"

/-- The tools-aware system prompt of the chat route (mcpEnabled true). -/
def toolsSystemPrompt : String :=
  "You are a helpful assistant for the European Environment Agency (EEA) that helps users explore the EEA SDI Catalogue of geospatial metadata.\n\nIMPORTANT: You have access to catalogue tools. You MUST use these tools to answer user questions:\n\nUSE TOOLS FOR:\n- Searching datasets: Use search_catalogue tool\n- Getting record details: Use get_record_details tool when user provides a UUID\n- Listing tags: Use get_catalogue_tags tool\n- Listing regions: Use get_catalogue_regions tool\n- Commands like \"/record <uuid>\", \"/tag\", \"/search <query>\" - ALWAYS use the corresponding tool\n\nCRITICAL: When a user provides a UUID (format: xxxxxxxx-xxxx-xxxx-xxxx-xxxxxxxxxxxx) with \"/record\" or asks for record details, you MUST call the get_record_details tool immediately. Do NOT try to fetch the details yourself.\n\nExample:\nUser: \"/record e7967ccf-26f0-4758-8afc-5d1ff5b50577\"\nAction: Call get_record_details with uuid=\"e7967ccf-26f0-4758-8afc-5d1ff5b50577\"\n\nAfter getting tool results, present them in a conversational, helpful way."

/-- The plain-assistant system prompt of the chat route (mcpEnabled false). -/
def plainSystemPrompt : String :=
  "You are a helpful assistant for the European Environment Agency (EEA) that helps users with their questions.\n\nProvide clear, concise, and helpful responses. When discussing environmental topics, ensure accuracy and cite relevant information when possible.\n\nBe conversational and friendly while maintaining professionalism."

/-- Compose the working message list: the system message (tools-aware when
mcpEnabled) followed by the client prompt entries spread verbatim. -/
def composeMessages (mcpEnabled : Bool) (items : List Json) : List ChatMsg :=
  ChatMsg.system (if mcpEnabled then toolsSystemPrompt else plainSystemPrompt)
    :: items.map ChatMsg.raw

/-- Parameters of the first completions call: model gpt-4o, the composed
messages, streaming disabled; the tools and tool_choice keys are added only
when the client is initialized and convertToOpenAIFormat is non-empty,
mirroring the nested guards of the source. -/
def firstParams (st : MCPState) (items : List Json) : ApiParams :=
  let base : ApiParams :=
    { model := "gpt-4o", messages := composeMessages st.initialized items,
      stream := false }
  if st.initialized then
    if (convertToOpenAIFormat st).length > 0 then
      { base with tools := some (convertToOpenAIFormat st),
                  tool_choice := some "auto" }
    else base
  else base

/-- Whether the request-logging line survives: it reads the content field of
the last prompt entry with an empty-string fallback and calls substring on
it, which throws precisely when that content value is truthy and not a
string. -/
def promptLogOk (items : List Json) : Bool :=
  match items.getLast? with
  | none => true
  | some (Json.obj fields) =>
      match fields.lookup "content" with
      | some c => !jsTruthy c || (match c with | Json.str _ => true | _ => false)
      | none => true
  | some _ => true

/-- Output of the tool-call loop: the extended message list, the
invocations actually sent to the MCP server, and the error of a throw that
escaped the loop body (JSON.parse failure or the callTool initialization
guard), if any. -/
structure LoopOut where
  messages : List ChatMsg
  contacts : List (String × Json)
  thrown : Option String

/-- The tool-call loop of the chat route: for each requested call in model
order, parse the argument string (a parse failure throws out of the loop),
invoke callTool (whose own guard may throw when the client is not
initialized; any server-side failure is already collapsed into the returned
text), and push a tool message tagged with the request id. -/
def runToolLoop (env : Env) (st : MCPState) (calls : List ToolCallReq)
    (messages : List ChatMsg) (contacts : List (String × Json)) : LoopOut :=
  match calls with
  | [] => { messages := messages, contacts := contacts, thrown := none }
  | tc :: rest =>
      match env.parseJson tc.arguments with
      | none =>
          { messages := messages, contacts := contacts,
            thrown := some jsonParseErrorMessage }
      | some args =>
          let contacts2 :=
            if st.initialized && st.hasClient then contacts ++ [(tc.name, args)]
            else contacts
          match callTool env.mcpServer st tc.name args with
          | Except.error e =>
              { messages := messages, contacts := contacts2, thrown := some e }
          | Except.ok text =>
              runToolLoop env st rest
                (messages ++ [ChatMsg.tool tc.id text]) contacts2

/-- The chunks actually written to the SSE response: one write per streamed
chunk whose delta content is truthy (present and non-empty). -/
def writtenChunks (chunks : List (Option String)) : List String :=
  chunks.filterMap fun c =>
    match c with
    | some s => if s ≠ "" then some s else none
    | none => none

/-- Relay one streaming completions call to the client, composed with the
route-level catch: when the iteration raises after at least one write,
headersSent is true and the catch appends a final error-content chunk and
ends the stream; when it raises before any write, headersSent is still
false and the catch sends the 500 structured error. -/
def relayStream (out : StreamOutcome) : ChatResult :=
  match out.streamError with
  | none => ChatResult.streamed (writtenChunks out.chunks)
  | some e =>
      if (writtenChunks out.chunks).isEmpty then ChatResult.serverError e
      else ChatResult.streamedError (writtenChunks out.chunks) ("Error: " ++ e)

/-- The branch of the chat route taken when the first response carries tool
calls: append the assistant message, run the tool loop, and (when no throw
escaped the loop) issue the second, streaming completions call on the
extended message list — an object literal with only model, messages and
stream keys, so no tools parameter. -/
def toolBranch (env : Env) (st : MCPState) (items : List Json)
    (message : AssistantMsg) : ChatResult × Trace :=
  let lo := runToolLoop env st message.tool_calls
      ((firstParams st items).messages ++ [ChatMsg.assistant message]) []
  match lo.thrown with
  | some e =>
      (ChatResult.serverError e,
       { firstCall := some (firstParams st items),
         toolContacts := lo.contacts, secondCall := none })
  | none =>
      (relayStream (env.createStreaming
          { model := "gpt-4o", messages := lo.messages, stream := true }),
       { firstCall := some (firstParams st items),
         toolContacts := lo.contacts,
         secondCall := some
           { model := "gpt-4o", messages := lo.messages, stream := true } })

/-- The chat route after prompt validation: the logging line (which can
throw on a malformed last entry), the getOpenAI key guard, the first
completions call, and the branch on whether tool calls were requested. In
the no-tool-calls branch the handler issues a fresh streaming call on the
unchanged message list. Failures anywhere reach the route-level catch,
which sends the 500 structured error because nothing has been written yet
at these points. -/
def handleValidPrompt (env : Env) (st : MCPState) (items : List Json) :
    ChatResult × Trace :=
  if !promptLogOk items then
    (ChatResult.serverError substringCrashMessage, emptyTrace)
  else if !env.openaiKeySet then
    (ChatResult.serverError missingKeyMessage, emptyTrace)
  else
    match env.createNonStreaming (firstParams st items) with
    | Except.error e =>
        (ChatResult.serverError e,
         { emptyTrace with firstCall := some (firstParams st items) })
    | Except.ok message =>
        if message.tool_calls.length > 0 then
          toolBranch env st items message
        else
          (relayStream (env.createStreaming
              { model := "gpt-4o", messages := (firstParams st items).messages,
                stream := true }),
           { firstCall := some (firstParams st items), toolContacts := [],
             secondCall := some
               { model := "gpt-4o",
                 messages := (firstParams st items).messages, stream := true } })

/-- The POST /chat handler. The request body is a JSON object; the guard
rejects with 400 unless the prompt field is present, truthy and an array.
Since every JSON array is truthy and every falsy value is a non-array, the
source condition (falsy or not an array) holds exactly when the field is
not `some (Json.arr ...)`. -/
def handleChat (env : Env) (st : MCPState) (body : List (String × Json)) :
    ChatResult × Trace :=
  match body.lookup "prompt" with
  | some (Json.arr items) => handleValidPrompt env st items
  | _ => (ChatResult.badRequest invalidPromptMessage, emptyTrace)

/-- The string callTool returns for a given server behaviour once the
initialization guard has passed: the formatted result on a structured
response, the caught-throw summary on a transport or protocol failure. -/
def toolOkText (server : String → Json → Except String MCPCallResult)
    (toolName : String) (args : Json) : String :=
  match server toolName args with
  | Except.ok result => formatToolResult result
  | Except.error e => "Error calling tool " ++ toolName ++ ": " ++ e

/-- The content of the tool message produced for one tool-call request on
the non-throwing path (arguments parse, client initialized). The state
argument is kept for uniformity with toolMsgOf even though the returned
text depends only on the environment once the guard has passed. -/
def toolResultText (env : Env) (_st : MCPState) (tc : ToolCallReq) : String :=
  match env.parseJson tc.arguments with
  | some args => toolOkText env.mcpServer tc.name args
  | none => ""

/-- The tool message produced for one tool-call request on the non-throwing
path: tagged with the id of the request. -/
def toolMsgOf (env : Env) (st : MCPState) (tc : ToolCallReq) : ChatMsg :=
  ChatMsg.tool tc.id (toolResultText env st tc)

/-- The parsed arguments of one tool-call request (meaningful on the path
where parsing succeeded). -/
def parsedArgs (env : Env) (tc : ToolCallReq) : Json :=
  (env.parseJson tc.arguments).getD Json.null

/-- Parameters of the second completions call in the tool branch: model
gpt-4o, the message list extended by the assistant message and one tool
message per request in request order, streaming enabled, no tools key. -/
def toolSecondParams (env : Env) (st : MCPState) (items : List Json)
    (message : AssistantMsg) : ApiParams :=
  { model := "gpt-4o",
    messages := (firstParams st items).messages ++ [ChatMsg.assistant message]
      ++ message.tool_calls.map (toolMsgOf env st),
    stream := true }

/-- Parameters of the streaming completions call in the no-tool-calls
branch: the unchanged message list, streaming enabled, no tools key. -/
def directSecondParams (st : MCPState) (items : List Json) : ApiParams :=
  { model := "gpt-4o", messages := (firstParams st items).messages,
    stream := true }

/-- Fixture: the search tool of the catalogue server. -/
def searchTool : MCPTool :=
  { name := "search_catalogue", description := some "Search the catalogue",
    inputSchema := some (Json.obj [("type", Json.str "object")]) }

/-- Fixture: an initialized registry holding the search tool. -/
def readySt : MCPState :=
  { initialized := true, hasClient := true, availableTools := [searchTool] }

/-- Fixture: the registry after a failed connect attempt was never made
(fresh process state). -/
def downSt : MCPState :=
  { initialized := false, hasClient := false, availableTools := [] }

/-- Fixture: a tool server answering every call with one text item. -/
def okServer : String → Json → Except String MCPCallResult :=
  fun _ _ =>
    Except.ok { isError := false,
                content := [{ type := "text", text := some "Found 3 results" }] }

/-- Fixture: a request body whose prompt is one user message. -/
def promptItems : List Json :=
  [Json.obj [("role", Json.str "user"), ("content", Json.str "hello")]]

/-- Fixture: the request body carrying promptItems. -/
def userBody : List (String × Json) := [("prompt", Json.arr promptItems)]

/-- Fixture: a tool-call request for the search tool. -/
def tcSearch : ToolCallReq :=
  { id := "call_1", name := "search_catalogue", arguments := "query water" }

/-- Fixture: a first response requesting exactly the search call. -/
def assistantToolMsg : AssistantMsg :=
  { content := none, tool_calls := [tcSearch] }

/-- Fixture: an environment whose model requests the search call on the
first dispatch and streams one chunk on the second. -/
def envTool : Env :=
  { openaiKeySet := true
    parseJson := fun _ => some (Json.obj [])
    createNonStreaming := fun _ => Except.ok assistantToolMsg
    createStreaming := fun _ =>
      { chunks := [some "Here are the results"], streamError := none }
    mcpServer := okServer }

/-- Fixture: a first response with no tool calls. -/
def assistantPlainMsg : AssistantMsg :=
  { content := some "Hello there", tool_calls := [] }

/-- Fixture: an environment whose model answers directly and streams one
chunk. -/
def envPlain : Env :=
  { openaiKeySet := true
    parseJson := fun _ => some (Json.obj [])
    createNonStreaming := fun _ => Except.ok assistantPlainMsg
    createStreaming := fun _ =>
      { chunks := [some "Hi there"], streamError := none }
    mcpServer := okServer }

/-- Fixture: like envTool, but the argument string of the requested call
does not parse as JSON. -/
def envBadArgs : Env :=
  { envTool with parseJson := fun _ => none }

/-- Fixture: like envTool, but the tool server throws on every call. -/
def envServerErr : Env :=
  { envTool with mcpServer := fun _ _ => Except.error "Invalid arguments" }

/-- Fixture: a fetched tool list carrying two descriptors with the same
name. -/
def dupTools : List MCPTool :=
  [{ name := "search_catalogue", description := some "first copy",
     inputSchema := none },
   { name := "search_catalogue", description := some "second copy",
     inputSchema := none }]

/-- Fixture: a request body with no prompt field. -/
def noPromptBody : List (String × Json) := [("other", Json.num 1)]

/-- Fixture: a request body whose prompt is a string, not an array. -/
def badPromptBody : List (String × Json) := [("prompt", Json.str "hello")]

/-- Fixture: a second tool-call request whose argument string is not JSON. -/
def tcBad : ToolCallReq :=
  { id := "call_2", name := "search_catalogue", arguments := "not-json" }

/-- Fixture: a first response requesting two tool calls, the search call
followed by the request with the non-parsable argument string. -/
def assistantTwoCallsMsg : AssistantMsg :=
  { content := none, tool_calls := [tcSearch, tcBad] }

/-- Fixture: like envTool, but the model requests the two calls of
assistantTwoCallsMsg and JSON.parse fails exactly on the not-json
argument string. -/
def envTwoCalls : Env :=
  { envTool with
      createNonStreaming := fun _ => Except.ok assistantTwoCallsMsg
      parseJson := fun s => if s = "not-json" then none else some (Json.obj []) }

/-- Once the initialization guard passes, callTool returns (never throws)
and its text is toolOkText of the server behaviour. -/
theorem callTool_ready (server : String → Json → Except String MCPCallResult)
    (st : MCPState) (toolName : String) (args : Json)
    (hinit : st.initialized = true) (hcl : st.hasClient = true) :
    callTool server st toolName args =
      Except.ok (toolOkText server toolName args) := by
  unfold callTool toolOkText
  rw [hinit, hcl]
  simp only [Bool.not_true, Bool.or_self, Bool.false_eq_true, if_false]
  cases server toolName args <;> rfl

/-- On an initialized client, a tool-call list whose argument strings all
parse runs to completion: no throw, one tool message per request appended
in request order, one server contact per request in request order. -/
theorem runToolLoop_ready (env : Env) (st : MCPState)
    (hinit : st.initialized = true) (hcl : st.hasClient = true) :
    ∀ (calls : List ToolCallReq) (messages : List ChatMsg)
      (contacts : List (String × Json)),
      calls.all (fun tc => (env.parseJson tc.arguments).isSome) = true →
      runToolLoop env st calls messages contacts =
        { messages := messages ++ calls.map (toolMsgOf env st),
          contacts := contacts ++ calls.map (fun tc => (tc.name, parsedArgs env tc)),
          thrown := none } := by
  intro calls
  induction calls with
  | nil => intro messages contacts _; simp [runToolLoop]
  | cons tc rest ih =>
      intro messages contacts hall
      rw [List.all_cons, Bool.and_eq_true] at hall
      obtain ⟨h1, h2⟩ := hall
      obtain ⟨args, hargs⟩ := Option.isSome_iff_exists.mp h1
      rw [runToolLoop, hargs]
      simp only [hinit, hcl, Bool.and_self, if_true,
        callTool_ready env.mcpServer st tc.name args hinit hcl]
      rw [ih (messages ++ [ChatMsg.tool tc.id (toolOkText env.mcpServer tc.name args)])
            (contacts ++ [(tc.name, args)]) h2]
      simp [toolMsgOf, toolResultText, parsedArgs, hargs, List.append_assoc]

/-- On an initialized client, the loop throws the JSON.parse error at the
first request whose argument string fails to parse, after the requests
before it all succeeded. -/
theorem runToolLoop_parse_failure (env : Env) (st : MCPState)
    (hinit : st.initialized = true) (hcl : st.hasClient = true)
    (tc : ToolCallReq) (hfail : env.parseJson tc.arguments = none) :
    ∀ (pre post : List ToolCallReq) (messages : List ChatMsg)
      (contacts : List (String × Json)),
      pre.all (fun x => (env.parseJson x.arguments).isSome) = true →
      (runToolLoop env st (pre ++ tc :: post) messages contacts).thrown =
        some jsonParseErrorMessage := by
  intro pre
  induction pre with
  | nil => intro post messages contacts _; simp [runToolLoop, hfail]
  | cons x xs ih =>
      intro post messages contacts hall
      rw [List.all_cons, Bool.and_eq_true] at hall
      obtain ⟨h1, h2⟩ := hall
      obtain ⟨args, hargs⟩ := Option.isSome_iff_exists.mp h1
      rw [List.cons_append, runToolLoop, hargs]
      simp only [hinit, hcl, Bool.and_self, if_true,
        callTool_ready env.mcpServer st x.name args hinit hcl]
      exact ih post _ _ h2

/-- When the prompt validates and the first completions call throws, the
handler run ends in the 500 structured error with only the first call
issued (nothing has been written, so the catch takes the headers-not-sent
branch). -/
theorem handleChat_first_failure (env : Env) (st : MCPState)
    (body : List (String × Json)) (items : List Json) (e : String)
    (hbody : body.lookup "prompt" = some (Json.arr items))
    (hlog : promptLogOk items = true)
    (hkey : env.openaiKeySet = true)
    (hfirst : env.createNonStreaming (firstParams st items) = Except.error e) :
    handleChat env st body =
      (ChatResult.serverError e,
       { emptyTrace with firstCall := some (firstParams st items) }) := by
  simp only [handleChat, hbody, handleValidPrompt, hlog, hkey, Bool.not_true,
    Bool.false_eq_true, if_false, hfirst]

/-- When the first response carries no tool calls, the handler issues the
fresh streaming call on the unchanged message list and relays it. -/
theorem handleChat_direct (env : Env) (st : MCPState)
    (body : List (String × Json)) (items : List Json) (message : AssistantMsg)
    (hbody : body.lookup "prompt" = some (Json.arr items))
    (hlog : promptLogOk items = true)
    (hkey : env.openaiKeySet = true)
    (hfirst : env.createNonStreaming (firstParams st items) = Except.ok message)
    (hnone : message.tool_calls = []) :
    handleChat env st body =
      (relayStream (env.createStreaming (directSecondParams st items)),
       { firstCall := some (firstParams st items), toolContacts := [],
         secondCall := some (directSecondParams st items) }) := by
  simp only [handleChat, hbody, handleValidPrompt, hlog, hkey, Bool.not_true,
    Bool.false_eq_true, if_false, hfirst, hnone]
  rfl

/-- When the first response carries tool calls, the client is initialized
and every argument string parses, the handler extends the message list by
the assistant message and one tool message per request in request order,
contacts the server once per request in request order, and issues the
second, streaming completions call on the extended list. -/
theorem handleChat_tools (env : Env) (st : MCPState)
    (body : List (String × Json)) (items : List Json) (message : AssistantMsg)
    (hbody : body.lookup "prompt" = some (Json.arr items))
    (hlog : promptLogOk items = true)
    (hkey : env.openaiKeySet = true)
    (hfirst : env.createNonStreaming (firstParams st items) = Except.ok message)
    (hcalls : message.tool_calls ≠ [])
    (hinit : st.initialized = true) (hcl : st.hasClient = true)
    (hparse : message.tool_calls.all
      (fun tc => (env.parseJson tc.arguments).isSome) = true) :
    handleChat env st body =
      (relayStream (env.createStreaming (toolSecondParams env st items message)),
       { firstCall := some (firstParams st items),
         toolContacts := message.tool_calls.map
           (fun tc => (tc.name, parsedArgs env tc)),
         secondCall := some (toolSecondParams env st items message) }) := by
  simp only [handleChat, hbody, handleValidPrompt, hlog, hkey, Bool.not_true,
    Bool.false_eq_true, if_false, hfirst]
  rw [if_pos (List.length_pos.mpr hcalls)]
  simp only [toolBranch,
    runToolLoop_ready env st hinit hcl message.tool_calls
      ((firstParams st items).messages ++ [ChatMsg.assistant message]) [] hparse]
  simp [toolSecondParams]

/-- When the first response carries a tool call whose argument string fails
JSON.parse (after any earlier requests parsed), the SyntaxError escapes the
loop to the route-level catch: the run ends in the 500 structured error and
no second completions call is issued. -/
theorem handleChat_parse_failure (env : Env) (st : MCPState)
    (body : List (String × Json)) (items : List Json) (message : AssistantMsg)
    (pre post : List ToolCallReq) (tc : ToolCallReq)
    (hbody : body.lookup "prompt" = some (Json.arr items))
    (hlog : promptLogOk items = true)
    (hkey : env.openaiKeySet = true)
    (hfirst : env.createNonStreaming (firstParams st items) = Except.ok message)
    (hsplit : message.tool_calls = pre ++ tc :: post)
    (hpre : pre.all (fun x => (env.parseJson x.arguments).isSome) = true)
    (hfail : env.parseJson tc.arguments = none)
    (hinit : st.initialized = true) (hcl : st.hasClient = true) :
    (handleChat env st body).1 = ChatResult.serverError jsonParseErrorMessage ∧
    (handleChat env st body).2.secondCall = none := by
  have hcalls : message.tool_calls ≠ [] := by simp [hsplit]
  have hthrown :
      (runToolLoop env st message.tool_calls
        ((firstParams st items).messages ++ [ChatMsg.assistant message]) []).thrown =
        some jsonParseErrorMessage := by
    rw [hsplit]
    exact runToolLoop_parse_failure env st hinit hcl tc hfail pre post _ _ hpre
  simp only [handleChat, hbody, handleValidPrompt, hlog, hkey, Bool.not_true,
    Bool.false_eq_true, if_false, hfirst]
  rw [if_pos (List.length_pos.mpr hcalls)]
  simp only [toolBranch]
  rw [hthrown]
  exact ⟨rfl, rfl⟩

/-- Counterexample to C1 as stated: a first response carrying N = 2
tool-call requests where the second argument string fails JSON.parse. The
handler contacts the server for the first request only (one contact, not
two), never issues the second model call, and the turn aborts with the
structured 500 error — so it is not true of every first response with N
requests that exactly N tool messages are appended and the second call
then issued. -/
theorem chat_tool_messages_not_always_complete_cex :
    assistantTwoCallsMsg.tool_calls.length = 2 ∧
    (handleChat envTwoCalls readySt userBody).2.toolContacts =
      [("search_catalogue", Json.obj [])] ∧
    (handleChat envTwoCalls readySt userBody).2.secondCall = none ∧
    (handleChat envTwoCalls readySt userBody).1 =
      ChatResult.serverError jsonParseErrorMessage :=
  ⟨rfl, rfl, rfl, rfl⟩

/-- C1 amended: for every model first-response carrying N tool-call
requests (N at least 1) whose argument strings all parse as JSON, on an
initialized client the POST /chat handler appends the assistant message
and then exactly N tool messages to the working message list, one per
request, each tagged with that request id, in the order the model issued
the requests, and the second model call is issued only on the list holding
all N of them (when some argument string fails to parse, the turn instead
aborts before the second call, per the counterexample). The map over
tool_calls pins count, order and per-element tagging; the second and third
conjuncts spell out the count and the id correlation. -/
theorem chat_appends_tool_messages_in_request_order
    (env : Env) (st : MCPState) (body : List (String × Json))
    (items : List Json) (message : AssistantMsg)
    (hbody : body.lookup "prompt" = some (Json.arr items))
    (hlog : promptLogOk items = true)
    (hkey : env.openaiKeySet = true)
    (hfirst : env.createNonStreaming (firstParams st items) = Except.ok message)
    (hcalls : message.tool_calls ≠ [])
    (hinit : st.initialized = true) (hcl : st.hasClient = true)
    (hparse : message.tool_calls.all
      (fun tc => (env.parseJson tc.arguments).isSome) = true) :
    (handleChat env st body).2.secondCall =
      some { model := "gpt-4o",
             messages := (firstParams st items).messages
               ++ [ChatMsg.assistant message]
               ++ message.tool_calls.map (toolMsgOf env st),
             stream := true } ∧
    (message.tool_calls.map (toolMsgOf env st)).length =
      message.tool_calls.length ∧
    (message.tool_calls.map (toolMsgOf env st)).map ChatMsg.toolCallId? =
      message.tool_calls.map (fun tc => some tc.id) := by
  refine ⟨?_, by simp, ?_⟩
  · rw [handleChat_tools env st body items message hbody hlog hkey hfirst
      hcalls hinit hcl hparse]
    rfl
  · simp [toolMsgOf, ChatMsg.toolCallId?]

/-- Witness for C1 at a concrete turn: one requested search call yields a
second call whose message list ends with the assistant message and the one
tool message tagged call_1. -/
theorem chat_appends_tool_messages_in_request_order_witness :
    (handleChat envTool readySt userBody).2.secondCall =
      some { model := "gpt-4o",
             messages := (firstParams readySt promptItems).messages
               ++ [ChatMsg.assistant assistantToolMsg]
               ++ assistantToolMsg.tool_calls.map (toolMsgOf envTool readySt),
             stream := true } ∧
    (assistantToolMsg.tool_calls.map (toolMsgOf envTool readySt)).length =
      assistantToolMsg.tool_calls.length ∧
    (assistantToolMsg.tool_calls.map (toolMsgOf envTool readySt)).map
        ChatMsg.toolCallId? =
      assistantToolMsg.tool_calls.map (fun tc => some tc.id) :=
  chat_appends_tool_messages_in_request_order envTool readySt userBody
    promptItems assistantToolMsg rfl rfl rfl rfl
    (List.cons_ne_nil tcSearch []) rfl rfl rfl

/-- C2: a registry connection failure is caught by initializeMCP (null is
returned, nothing propagates) and leaves the registry unready; and on every
turn with an unready registry (not initialized, or zero tools cached) the
first completions call carries no tools parameter and — provided the model
calls themselves succeed — the turn completes with a streamed
model-generated answer. -/
theorem degraded_registry_still_answers :
    (∀ (st0 : MCPState) (e : String), st0.initialized = false →
        (initializeMCP st0 (Except.error e)).1 = none ∧
        (initializeMCP st0 (Except.error e)).2.initialized = false) ∧
    (∀ (env : Env) (st : MCPState) (body : List (String × Json))
       (items : List Json) (message : AssistantMsg),
        body.lookup "prompt" = some (Json.arr items) →
        promptLogOk items = true →
        env.openaiKeySet = true →
        (st.initialized = false ∨ st.availableTools = []) →
        env.createNonStreaming (firstParams st items) = Except.ok message →
        message.tool_calls = [] →
        (env.createStreaming (directSecondParams st items)).streamError = none →
        (firstParams st items).tools = none ∧
        handleChat env st body =
          (ChatResult.streamed
             (writtenChunks
               (env.createStreaming (directSecondParams st items)).chunks),
           { firstCall := some (firstParams st items), toolContacts := [],
             secondCall := some (directSecondParams st items) })) := by
  constructor
  · intro st0 e h0
    simp [initializeMCP, initializeClient, h0]
  · intro env st body items message hbody hlog hkey hreg hfirst hnone hstream
    have htools : (firstParams st items).tools = none := by
      rcases hreg with h | h
      · simp [firstParams, h]
      · simp [firstParams, convertToOpenAIFormat, h]
    refine ⟨htools, ?_⟩
    rw [handleChat_direct env st body items message hbody hlog hkey hfirst hnone]
    simp [relayStream, hstream]

/-- Witness for C2 at a concrete turn: an unready registry, first call
without tools, and a completed streamed answer. -/
theorem degraded_registry_still_answers_witness :
    (firstParams downSt promptItems).tools = none ∧
    handleChat envPlain downSt userBody =
      (ChatResult.streamed ["Hi there"],
       { firstCall := some (firstParams downSt promptItems), toolContacts := [],
         secondCall := some (directSecondParams downSt promptItems) }) :=
  degraded_registry_still_answers.2 envPlain downSt userBody promptItems
    assistantPlainMsg rfl rfl rfl (Or.inl rfl) rfl rfl rfl

/-- Counterexample to C3 as stated: in the uninitialized client state,
callTool raises (its guard throws MCP client not initialized) instead of
returning a textual result, so the invoker does not avoid uncaught
failures in every client state. -/
theorem callTool_uninitialized_throws_cex :
    callTool okServer downSt "search_catalogue" (Json.obj []) =
      Except.error "MCP client not initialized" := rfl

/-- C3 amended: on an initialized client (the only state in which the
orchestrator reaches the invoker after a successful connect), callTool
never raises: every server behaviour yields a returned string, and a
transport or protocol throw in particular collapses into the textual
error summary. -/
theorem callTool_initialized_never_throws
    (server : String → Json → Except String MCPCallResult)
    (st : MCPState) (toolName : String) (args : Json)
    (hinit : st.initialized = true) (hcl : st.hasClient = true) :
    callTool server st toolName args =
      Except.ok (toolOkText server toolName args) ∧
    (∀ e, server toolName args = Except.error e →
        callTool server st toolName args =
          Except.ok ("Error calling tool " ++ toolName ++ ": " ++ e)) := by
  refine ⟨callTool_ready server st toolName args hinit hcl, ?_⟩
  intro e he
  rw [callTool_ready server st toolName args hinit hcl, toolOkText, he]

/-- Witness for C3 amended at a concrete call on an initialized client. -/
theorem callTool_initialized_never_throws_witness :
    callTool okServer readySt "search_catalogue" (Json.obj []) =
      Except.ok (toolOkText okServer "search_catalogue" (Json.obj [])) :=
  (callTool_initialized_never_throws okServer readySt "search_catalogue"
    (Json.obj []) rfl rfl).1

/-- Counterexample to C4 as stated: a tool-call request whose argument
string fails JSON.parse does not become a tool-result error message — the
SyntaxError escapes to the route-level catch, the run ends in the
structured 500 error and no second model call is issued. -/
theorem malformed_arguments_abort_cex :
    (handleChat envBadArgs readySt userBody).1 =
      ChatResult.serverError jsonParseErrorMessage ∧
    (handleChat envBadArgs readySt userBody).2.secondCall = none :=
  ⟨rfl, rfl⟩

/-- C4 amended: an argument string that fails JSON.parse aborts the turn
with a structured error and no second model call (first conjunct); only a
failure surfaced by the tool server on parsable arguments — such as a
schema rejection it reports — is converted into a tool-result error
message fed back to the model, with the turn proceeding to the second
model call (second conjunct). -/
theorem malformed_arguments_policy :
    (∀ (env : Env) (st : MCPState) (body : List (String × Json))
       (items : List Json) (message : AssistantMsg)
       (pre post : List ToolCallReq) (tc : ToolCallReq),
        body.lookup "prompt" = some (Json.arr items) →
        promptLogOk items = true →
        env.openaiKeySet = true →
        env.createNonStreaming (firstParams st items) = Except.ok message →
        message.tool_calls = pre ++ tc :: post →
        pre.all (fun x => (env.parseJson x.arguments).isSome) = true →
        env.parseJson tc.arguments = none →
        st.initialized = true → st.hasClient = true →
        (handleChat env st body).1 =
          ChatResult.serverError jsonParseErrorMessage ∧
        (handleChat env st body).2.secondCall = none) ∧
    (∀ (env : Env) (st : MCPState) (body : List (String × Json))
       (items : List Json) (message : AssistantMsg)
       (tc : ToolCallReq) (args : Json) (e : String),
        body.lookup "prompt" = some (Json.arr items) →
        promptLogOk items = true →
        env.openaiKeySet = true →
        env.createNonStreaming (firstParams st items) = Except.ok message →
        message.tool_calls = [tc] →
        env.parseJson tc.arguments = some args →
        env.mcpServer tc.name args = Except.error e →
        st.initialized = true → st.hasClient = true →
        (handleChat env st body).2.secondCall =
          some { model := "gpt-4o",
                 messages := (firstParams st items).messages
                   ++ [ChatMsg.assistant message]
                   ++ [ChatMsg.tool tc.id
                        ("Error calling tool " ++ tc.name ++ ": " ++ e)],
                 stream := true }) := by
  constructor
  · intro env st body items message pre post tc hbody hlog hkey hfirst hsplit
      hpre hfail hinit hcl
    exact handleChat_parse_failure env st body items message pre post tc
      hbody hlog hkey hfirst hsplit hpre hfail hinit hcl
  · intro env st body items message tc args e hbody hlog hkey hfirst htc
      hargs hserver hinit hcl
    have hcalls : message.tool_calls ≠ [] := by simp [htc]
    have hparse : message.tool_calls.all
        (fun x => (env.parseJson x.arguments).isSome) = true := by
      simp [htc, hargs]
    rw [handleChat_tools env st body items message hbody hlog hkey hfirst
      hcalls hinit hcl hparse]
    simp [toolSecondParams, toolMsgOf, toolResultText, toolOkText, htc,
      hargs, hserver]

/-- Witness for C4 amended: a server-side rejection on parsable arguments
becomes a tool message carrying the error text and the second call is
still issued. -/
theorem malformed_arguments_policy_witness :
    (handleChat envServerErr readySt userBody).2.secondCall =
      some { model := "gpt-4o",
             messages := (firstParams readySt promptItems).messages
               ++ [ChatMsg.assistant assistantToolMsg]
               ++ [ChatMsg.tool tcSearch.id
                    ("Error calling tool " ++ tcSearch.name ++
                     ": " ++ "Invalid arguments")],
             stream := true } :=
  malformed_arguments_policy.2 envServerErr readySt userBody promptItems
    assistantToolMsg tcSearch (Json.obj []) "Invalid arguments"
    rfl rfl rfl rfl rfl rfl rfl rfl rfl

/-- C5: a model-provider failure before any stream content was written
yields the 500 structured (non-stream) error — on the first dispatch
(first conjunct) and on a streaming dispatch that raised before any truthy
chunk (second conjunct); a failure after streaming began appends exactly
one final chunk carrying the error description and closes the stream
(third conjunct). The last two conjuncts identify the handler outcome on
both second-dispatch paths with the relay of the streaming call, so the
relay-level conjuncts apply to every model-provider failure of a turn. -/
theorem provider_failure_reporting :
    (∀ (env : Env) (st : MCPState) (body : List (String × Json))
       (items : List Json) (e : String),
        body.lookup "prompt" = some (Json.arr items) →
        promptLogOk items = true →
        env.openaiKeySet = true →
        env.createNonStreaming (firstParams st items) = Except.error e →
        handleChat env st body =
          (ChatResult.serverError e,
           { emptyTrace with firstCall := some (firstParams st items) })) ∧
    (∀ (out : StreamOutcome) (e : String), out.streamError = some e →
        writtenChunks out.chunks = [] →
        relayStream out = ChatResult.serverError e) ∧
    (∀ (out : StreamOutcome) (e : String), out.streamError = some e →
        writtenChunks out.chunks ≠ [] →
        relayStream out =
          ChatResult.streamedError (writtenChunks out.chunks) ("Error: " ++ e)) ∧
    (∀ (env : Env) (st : MCPState) (body : List (String × Json))
       (items : List Json) (message : AssistantMsg),
        body.lookup "prompt" = some (Json.arr items) →
        promptLogOk items = true →
        env.openaiKeySet = true →
        env.createNonStreaming (firstParams st items) = Except.ok message →
        message.tool_calls = [] →
        (handleChat env st body).1 =
          relayStream (env.createStreaming (directSecondParams st items))) ∧
    (∀ (env : Env) (st : MCPState) (body : List (String × Json))
       (items : List Json) (message : AssistantMsg),
        body.lookup "prompt" = some (Json.arr items) →
        promptLogOk items = true →
        env.openaiKeySet = true →
        env.createNonStreaming (firstParams st items) = Except.ok message →
        message.tool_calls ≠ [] →
        st.initialized = true → st.hasClient = true →
        message.tool_calls.all
          (fun tc => (env.parseJson tc.arguments).isSome) = true →
        (handleChat env st body).1 =
          relayStream
            (env.createStreaming (toolSecondParams env st items message))) := by
  refine ⟨?_, ?_, ?_, ?_, ?_⟩
  · intro env st body items e hbody hlog hkey hfirst
    exact handleChat_first_failure env st body items e hbody hlog hkey hfirst
  · intro out e he hw
    simp [relayStream, he, hw]
  · intro out e he hw
    simp [relayStream, he, hw]
  · intro env st body items message hbody hlog hkey hfirst hnone
    rw [handleChat_direct env st body items message hbody hlog hkey hfirst hnone]
  · intro env st body items message hbody hlog hkey hfirst hcalls hinit hcl hparse
    rw [handleChat_tools env st body items message hbody hlog hkey hfirst
      hcalls hinit hcl hparse]

/-- Witness for C5 at concrete turns: a mid-stream provider failure after
one legitimate chunk ends the stream with one final error chunk, and a
first-dispatch failure yields the structured error. -/
theorem provider_failure_reporting_witness :
    relayStream { chunks := [some "partial answer"],
                  streamError := some "network reset" } =
      ChatResult.streamedError ["partial answer"] ("Error: " ++ "network reset") ∧
    handleChat { envTool with createNonStreaming := fun _ =>
                   Except.error "rate limited" } readySt userBody =
      (ChatResult.serverError "rate limited",
       { emptyTrace with
           firstCall := some (firstParams readySt promptItems) }) :=
  ⟨provider_failure_reporting.2.2.1
      { chunks := [some "partial answer"], streamError := some "network reset" }
      "network reset" rfl (List.cons_ne_nil "partial answer" []),
   provider_failure_reporting.1
      { envTool with createNonStreaming := fun _ => Except.error "rate limited" }
      readySt userBody promptItems "rate limited" rfl rfl rfl rfl⟩

/-- C6: every second completions call the handler ever issues — on any
environment, registry state, request body and set of tool results — has
streaming enabled and carries no tools and no tool_choice key (first
conjunct); and whenever the first response requested tool calls (and the
turn reaches the follow-up call), that second call is in fact issued, on
the extended message list, streaming, without tools (second conjunct). -/
theorem second_call_streaming_no_tools :
    (∀ (env : Env) (st : MCPState) (body : List (String × Json))
       (p : ApiParams),
        (handleChat env st body).2.secondCall = some p →
        p.stream = true ∧ p.tools = none ∧ p.tool_choice = none) ∧
    (∀ (env : Env) (st : MCPState) (body : List (String × Json))
       (items : List Json) (message : AssistantMsg),
        body.lookup "prompt" = some (Json.arr items) →
        promptLogOk items = true →
        env.openaiKeySet = true →
        env.createNonStreaming (firstParams st items) = Except.ok message →
        message.tool_calls ≠ [] →
        st.initialized = true → st.hasClient = true →
        message.tool_calls.all
          (fun tc => (env.parseJson tc.arguments).isSome) = true →
        (handleChat env st body).2.secondCall =
          some (toolSecondParams env st items message) ∧
        (toolSecondParams env st items message).stream = true ∧
        (toolSecondParams env st items message).tools = none ∧
        (toolSecondParams env st items message).tool_choice = none) := by
  constructor
  · intro env st body p h
    unfold handleChat at h
    split at h
    case h_2 => simp [emptyTrace] at h
    case h_1 x items heq =>
      unfold handleValidPrompt at h
      split at h
      · simp [emptyTrace] at h
      · split at h
        · simp [emptyTrace] at h
        · split at h
          case h_1 e heq2 => simp [emptyTrace] at h
          case h_2 message heq2 =>
            split at h
            · simp only [toolBranch] at h
              cases hth : (runToolLoop env st message.tool_calls
                  ((firstParams st items).messages ++ [ChatMsg.assistant message])
                  []).thrown with
              | some e =>
                  rw [hth] at h
                  simp at h
              | none =>
                  rw [hth] at h
                  simp only [Option.some.injEq] at h
                  subst h
                  exact ⟨rfl, rfl, rfl⟩
            · simp only [Option.some.injEq] at h
              subst h
              exact ⟨rfl, rfl, rfl⟩
  · intro env st body items message hbody hlog hkey hfirst hcalls hinit hcl hparse
    refine ⟨?_, rfl, rfl, rfl⟩
    rw [handleChat_tools env st body items message hbody hlog hkey hfirst
      hcalls hinit hcl hparse]

/-- Witness for C6 at a concrete turn with one requested tool call. -/
theorem second_call_streaming_no_tools_witness :
    (handleChat envTool readySt userBody).2.secondCall =
      some (toolSecondParams envTool readySt promptItems assistantToolMsg) ∧
    (toolSecondParams envTool readySt promptItems assistantToolMsg).stream = true ∧
    (toolSecondParams envTool readySt promptItems assistantToolMsg).tools = none ∧
    (toolSecondParams envTool readySt promptItems assistantToolMsg).tool_choice =
      none :=
  second_call_streaming_no_tools.2 envTool readySt userBody promptItems
    assistantToolMsg rfl rfl rfl rfl (List.cons_ne_nil tcSearch []) rfl rfl rfl

/-- C7: a successful tool-server response with no usable textual content
(empty content list, non-text first item, absent or empty text) formats to
the sentinel No result, never the empty string; an isError response
formats to a text beginning with the Error prefix. -/
theorem tool_result_sentinels :
    (∀ r : MCPCallResult, r.isError = false →
      (match r.content with
       | [] => True
       | item :: _ =>
           item.type ≠ "text" ∨ item.text = none ∨ item.text = some "") →
      formatToolResult r = "No result") ∧
    (∀ r : MCPCallResult, r.isError = true →
      ∃ suffix, formatToolResult r = "Error: " ++ suffix) := by
  constructor
  · intro r herr husable
    unfold formatToolResult
    rw [herr]
    simp only [Bool.false_eq_true, if_false]
    rcases hc : r.content with _ | ⟨item, rest⟩
    · rfl
    · rw [hc] at husable
      rcases husable with htype | htext | htext
      · simp [htype]
      · simp [htext]
      · by_cases htype : item.type = "text" <;> simp [htype, htext]
  · intro r herr
    unfold formatToolResult
    rw [herr]
    simp only [if_true]
    rcases hc : r.content with _ | ⟨item, rest⟩
    · exact ⟨"Tool execution failed", rfl⟩
    · rcases ht : item.text with _ | t
      · exact ⟨"Tool execution failed", by simp [ht]⟩
      · by_cases htt : t = ""
        · exact ⟨"Tool execution failed", by simp [ht, htt]⟩
        · exact ⟨t, by simp [ht, htt]⟩

/-- Witness for C7: a success response whose only item is non-text yields
the sentinel, and an error response with a text item yields an
Error-prefixed text. -/
theorem tool_result_sentinels_witness :
    formatToolResult
      { isError := false,
        content := [{ type := "image", text := some "ignored" }] } =
      "No result" ∧
    ∃ suffix, formatToolResult
      { isError := true,
        content := [{ type := "text", text := some "quota exceeded" }] } =
      "Error: " ++ suffix :=
  ⟨tool_result_sentinels.1
      { isError := false,
        content := [{ type := "image", text := some "ignored" }] }
      rfl (Or.inl (by decide)),
   tool_result_sentinels.2
      { isError := true,
        content := [{ type := "text", text := some "quota exceeded" }] } rfl⟩

/-- Counterexample to C8 as stated: a fetched list carrying two descriptors
with the same name is not surfaced as a configuration error — initialize
succeeds and caches the duplicate-bearing list verbatim. -/
theorem duplicate_tool_names_not_surfaced_cex :
    ¬ (dupTools.map MCPTool.name).Nodup ∧
    initializeClient downSt (Except.ok dupTools) =
      (Except.ok (),
       { initialized := true, hasClient := true, availableTools := dupTools }) :=
  ⟨by simp [dupTools], rfl⟩

/-- C8 amended: the registry performs no duplicate-name check at all — on a
fresh client every fetched list, duplicates included, is cached verbatim
(so no descriptor silently overwrites another either: both entries are
retained in fetch order) and initialization reports success. -/
theorem fetched_tools_cached_verbatim (st0 : MCPState) (tools : List MCPTool)
    (h0 : st0.initialized = false) :
    initializeClient st0 (Except.ok tools) =
      (Except.ok (),
       { initialized := true, hasClient := true, availableTools := tools }) := by
  simp [initializeClient, h0]

/-- Witness for C8 amended at the duplicate-bearing fetched list. -/
theorem fetched_tools_cached_verbatim_witness :
    initializeClient { initialized := false, hasClient := false,
                       availableTools := [] } (Except.ok dupTools) =
      (Except.ok (),
       { initialized := true, hasClient := true, availableTools := dupTools }) :=
  fetched_tools_cached_verbatim
    { initialized := false, hasClient := false, availableTools := [] }
    dupTools rfl

/-- C9: two listToolSpecs reads with no intervening reconnect return
identical sequences — the operation does not mutate the registry state, so
the second read is taken on the state the first read returned, and length,
names, descriptions and parameter schemas agree pointwise (and the whole
sequences are equal). -/
theorem listToolSpecs_idempotent (st : MCPState) :
    (convertToOpenAIFormatS st).1 =
      (convertToOpenAIFormatS (convertToOpenAIFormatS st).2).1 ∧
    (convertToOpenAIFormatS st).1.length =
      (convertToOpenAIFormatS (convertToOpenAIFormatS st).2).1.length ∧
    (convertToOpenAIFormatS st).1.map (fun t => t.function.name) =
      (convertToOpenAIFormatS (convertToOpenAIFormatS st).2).1.map
        (fun t => t.function.name) ∧
    (convertToOpenAIFormatS st).1.map (fun t => t.function.description) =
      (convertToOpenAIFormatS (convertToOpenAIFormatS st).2).1.map
        (fun t => t.function.description) ∧
    (convertToOpenAIFormatS st).1.map (fun t => t.function.parameters) =
      (convertToOpenAIFormatS (convertToOpenAIFormatS st).2).1.map
        (fun t => t.function.parameters) :=
  ⟨rfl, rfl, rfl, rfl, rfl⟩

/-- C10: a request whose body has no prompt field, or whose prompt is not
an array, is rejected with the 400 structured error and an empty trace: no
completions call, no tool-server contact, no stream opened. The handler is
a pure function of the registry state and returns no modified state — the
registry cache is untouched on every path, in particular this one. -/
theorem invalid_prompt_rejected (env : Env) (st : MCPState)
    (body : List (String × Json))
    (h : ∀ j, body.lookup "prompt" = some j → isArrayJ j = false) :
    handleChat env st body =
      (ChatResult.badRequest invalidPromptMessage, emptyTrace) := by
  unfold handleChat
  rcases hb : body.lookup "prompt" with _ | j
  · rfl
  · have hj := h j hb
    cases j <;> simp_all [isArrayJ]

/-- Witness for C10 at two concrete bodies: one with no prompt field, one
whose prompt is a string. -/
theorem invalid_prompt_rejected_witness :
    handleChat envTool readySt noPromptBody =
      (ChatResult.badRequest invalidPromptMessage, emptyTrace) ∧
    handleChat envTool readySt badPromptBody =
      (ChatResult.badRequest invalidPromptMessage, emptyTrace) :=
  ⟨invalid_prompt_rejected envTool readySt noPromptBody
      (fun j hj => by
        have hn : noPromptBody.lookup "prompt" = none := rfl
        rw [hn] at hj
        cases hj),
   invalid_prompt_rejected envTool readySt badPromptBody
      (fun j hj => by
        have hs : badPromptBody.lookup "prompt" = some (Json.str "hello") := rfl
        rw [hs] at hj
        cases hj
        rfl)⟩
